import Mathlib

/-!
Verification of the Qtiler tile-cache generation engine
(`src/python/generate_cache.py`) against its natural-language
specification.  The Python source is shallowly embedded: coordinates are
exact rationals, tile indices are integers, counters are naturals,
fallible steps return `Option`.
-/

/-! ## Catalog index merge (generate_cache.py lines 2045-2103) -/

/-- Function `_safe_int` (lines 2045-2050): coerce a stored value to a
non-negative integer, `none` when absent/unparseable. -/
def safe_int : Option Int → Option Int
  | none => none
  | some v => some (max 0 v)

/-- Function `_merge_range` (lines 2052-2056): collect the present values among
the two previous and two new bounds and return (min, max) of them. -/
def merge_range (a b c d : Option Int) : Option Int × Option Int :=
  let values := List.filterMap id [a, b, c, d]
  match values with
  | [] => (none, none)
  | v :: vs => (some (vs.foldl min v), some (vs.foldl max v))

/-- Optional zoom fields of an existing catalog entry, as read back from
`index.json` (lines 2082-2098). -/
structure PrevEntry where
  published_zoom_min : Option Int
  published_zoom_max : Option Int
  zoom_min : Option Int
  zoom_max : Option Int
  cached_zoom_min : Option Int
  cached_zoom_max : Option Int

/-- Zoom fields of the freshly written catalog entry. -/
structure MergedEntry where
  zoom_min : Int
  zoom_max : Int
  published_zoom_min : Int
  published_zoom_max : Int
  cached_zoom_min : Int
  cached_zoom_max : Int
deriving DecidableEq

/-- The catalog-entry zoom merge (lines 2082-2102).  The fresh
`layer_entry` starts from the run's own ranges (lines 1981-1986:
`zoom_min`/`zoom_max`/`published_*` from `publish_zoom_*_effective`,
`cached_*` from `zoom_min`/`zoom_max`) and, when an entry with the same
(name, kind) key exists, the published and cached ranges are unioned
with the previous ones via `_merge_range`. -/
def mergeCatalogEntry (prev : PrevEntry) (pubMin pubMax zmin zmax : Int) :
    MergedEntry :=
  let base : MergedEntry :=
    { zoom_min := pubMin, zoom_max := pubMax
      published_zoom_min := pubMin, published_zoom_max := pubMax
      cached_zoom_min := zmin, cached_zoom_max := zmax }
  let prev_publish_min0 := safe_int prev.published_zoom_min
  let prev_publish_max0 := safe_int prev.published_zoom_max
  let prev_publish_min :=
    if prev_publish_min0 = none ∧ prev_publish_max0 = none then
      safe_int prev.zoom_min else prev_publish_min0
  let prev_publish_max :=
    if prev_publish_min0 = none ∧ prev_publish_max0 = none then
      safe_int prev.zoom_max else prev_publish_max0
  let merged_publish :=
    merge_range prev_publish_min prev_publish_max (some pubMin) (some pubMax)
  let e1 : MergedEntry :=
    match merged_publish with
    | (some lo, some hi) =>
      { base with zoom_min := lo, zoom_max := hi
                  published_zoom_min := lo, published_zoom_max := hi }
    | _ => base
  let prev_cached_min0 := safe_int prev.cached_zoom_min
  let prev_cached_max0 := safe_int prev.cached_zoom_max
  let prev_cached_min :=
    if prev_cached_min0 = none ∧ prev_cached_max0 = none then
      safe_int prev.zoom_min else prev_cached_min0
  let prev_cached_max :=
    if prev_cached_min0 = none ∧ prev_cached_max0 = none then
      safe_int prev.zoom_max else prev_cached_max0
  let merged_cached :=
    merge_range prev_cached_min prev_cached_max (some zmin) (some zmax)
  match merged_cached with
  | (some lo, some hi) =>
    { e1 with cached_zoom_min := lo, cached_zoom_max := hi }
  | _ => e1

/-! ## Final run status and exit code (lines 2106-2118) -/

/-- Expression `final_status` (line 2107): `"aborted"` when the cancellation flag
was observed, else `"error"` when the expected total is positive, zero
tiles were generated and at least one failure was counted, else
`"completed"`. -/
def final_status (term : Bool) (expected total_generated error_count : Nat) :
    String :=
  if term then "aborted"
  else if 0 < expected ∧ total_generated = 0 ∧ 0 < error_count then "error"
  else "completed"

/-- Expression `exit_code` (lines 2114-2116). -/
def exit_code (term : Bool) (expected total_generated error_count : Nat) :
    Nat :=
  if ¬term ∧ (0 < expected ∧ total_generated = 0 ∧ 0 < error_count) then 2
  else 0

/-! ## Default zoom-range expansion (lines 1413-1417) -/

/-- Lines 1413-1417: when both requested bounds are 0 (the argparse
defaults, lines 896-897) the effective range silently becomes 0..2. -/
def effective_zoom (zmin zmax : Int) : Int × Int :=
  if zmin = 0 ∧ zmax = 0 then (0, 2) else (zmin, zmax)

/-! ## Remote-provider guard (lines 1186-1201) -/

/-- The remote provider set (line 1186). -/
def remote_providers : List String := ["xyz", "wms", "wmts", "tile"]

/-- The per-layer provider guard loop (lines 1187-1201): a remote
provider without `allow_remote` is a fatal exit (`none`); a remote
provider with a falsy (0) or sub-60000 ms timeout forces the timeout up
to 60000 ms.  Returns the effective `render_timeout_ms`.  The source
compares `prov.lower()`; the list is taken to hold the already
lowercased provider strings. -/
def provider_guard : List String → Bool → Int → Option Int
  | [], _, t => some t
  | p :: rest, allow_remote, t =>
    if p ∈ remote_providers ∧ ¬allow_remote then none
    else if p ∈ remote_providers ∧ (t = 0 ∨ t < 60000) then
      provider_guard rest allow_remote 60000
    else provider_guard rest allow_remote t

/-! ## Grid model (generate_cache.py lines 282-330, 1597-1628, 1644-1658,
1709-1724)

Coordinates are exact rationals; `matrix.get(key, default)` on a preset
dict is modelled by `Option` fields with the call site's default. -/

/-- An axis-aligned extent (`QgsRectangle`). -/
structure Extent where
  xmin : Rat
  ymin : Rat
  xmax : Rat
  ymax : Rat
deriving DecidableEq

/-- One preset tile-matrix dict.  Fields are `Option` because the Python
code reads them with `matrix.get(key, default)`. -/
structure TileMatrix where
  resolution : Option Rat
  tile_width : Option Rat
  tile_height : Option Rat
  origin_x : Option Rat
  origin_y : Option Rat
  matrix_width : Option Int
  matrix_height : Option Int
deriving DecidableEq

/-- A computed tile span (the dict returned at lines 321-330). -/
structure Span where
  min_col : Int
  max_col : Int
  min_row : Int
  max_row : Int
  tile_width_mu : Rat
  tile_height_mu : Rat
  origin_x : Rat
  origin_y : Rat
deriving DecidableEq

/-- Function `_compute_tile_span` (lines 282-330).  `if not res or res <= 0` is
`res ≤ 0` on a present numeric value, `none` otherwise. -/
def compute_tile_span (extent : Option Extent) (matrix : Option TileMatrix) :
    Option Span :=
  match extent, matrix with
  | some e, some m =>
    if e.xmax ≤ e.xmin ∨ e.ymax ≤ e.ymin then none
    else
      match m.resolution with
      | none => none
      | some res =>
        if res ≤ 0 then none
        else
          let tile_w_mu := (m.tile_width.getD 256) * res
          let tile_h_mu := (m.tile_height.getD 256) * res
          if tile_w_mu ≤ 0 ∨ tile_h_mu ≤ 0 then none
          else
            let origin_x := m.origin_x.getD 0
            let origin_y := m.origin_y.getD 0
            let matrix_w := max 1 (m.matrix_width.getD 1)
            let matrix_h := max 1 (m.matrix_height.getD 1)
            let min_col0 := ⌊(e.xmin - origin_x) / tile_w_mu⌋
            let max_col0 := ⌊(e.xmax - origin_x) / tile_w_mu⌋
            let min_row0 := ⌊(origin_y - e.ymax) / tile_h_mu⌋
            let max_row0 := ⌊(origin_y - e.ymin) / tile_h_mu⌋
            let min_col1 := if max_col0 < min_col0 then max_col0 else min_col0
            let max_col1 := if max_col0 < min_col0 then min_col0 else max_col0
            let min_row1 := if max_row0 < min_row0 then max_row0 else min_row0
            let max_row1 := if max_row0 < min_row0 then min_row0 else max_row0
            let min_col := max 0 (min (matrix_w - 1) min_col1)
            let max_col := max 0 (min (matrix_w - 1) max_col1)
            let min_row := max 0 (min (matrix_h - 1) min_row1)
            let max_row := max 0 (min (matrix_h - 1) max_row1)
            if max_col < min_col ∨ max_row < min_row then none
            else
              some { min_col := min_col, max_col := max_col
                     min_row := min_row, max_row := max_row
                     tile_width_mu := tile_w_mu, tile_height_mu := tile_h_mu
                     origin_x := origin_x, origin_y := origin_y }
  | _, _ => none

/-- The span-fallback dict built when `_compute_tile_span` returns a
falsy value (lines 1604-1616): the full preset-declared matrix range.
`tile_w_mu if tile_w_mu else TILE_SIZE` is Python truthiness on a
number: 0 falls back to `TILE_SIZE`. -/
def fallback_span (m : TileMatrix) (TILE_SIZE : Rat) : Span :=
  let tile_w_mu := (m.tile_width.getD TILE_SIZE) * (m.resolution.getD 0)
  let tile_h_mu := (m.tile_height.getD TILE_SIZE) * (m.resolution.getD 0)
  { min_col := 0
    max_col := m.matrix_width.getD 1 - 1
    min_row := 0
    max_row := m.matrix_height.getD 1 - 1
    tile_width_mu := if tile_w_mu = 0 then TILE_SIZE else tile_w_mu
    tile_height_mu := if tile_h_mu = 0 then TILE_SIZE else tile_h_mu
    origin_x := m.origin_x.getD 0
    origin_y := m.origin_y.getD 0 }

/-- The per-matrix span step of the wmts preset branch
(lines 1602-1628): compute the span, fall back to the full matrix when
absent, re-clamp the indices into the grid, and skip the level
(`continue`, modelled as `none`) when the clamped range is inverted. -/
def preset_span (extent : Option Extent) (m : TileMatrix) (TILE_SIZE : Rat) :
    Option Span :=
  let span0 :=
    match compute_tile_span extent (some m) with
    | some s => s
    | none => fallback_span m TILE_SIZE
  let w := m.matrix_width.getD 1
  let h := m.matrix_height.getD 1
  let s : Span :=
    { span0 with
      min_col := max 0 (min (w - 1) span0.min_col)
      max_col := max 0 (min (w - 1) span0.max_col)
      min_row := max 0 (min (h - 1) span0.min_row)
      max_row := max 0 (min (h - 1) span0.max_row) }
  if s.max_col < s.min_col ∨ s.max_row < s.min_row then none
  else some s

/-- The bounding box rendered for tile (x, y) of a span
(lines 1651-1655): `(minx, miny, maxx, maxy)` from the span's origin and
tile sizes in CRS units. -/
def tile_bbox (s : Span) (x y : Int) : Extent :=
  let minx := s.origin_x + x * s.tile_width_mu
  let maxx := minx + s.tile_width_mu
  let maxy := s.origin_y - y * s.tile_height_mu
  let miny := maxy - s.tile_height_mu
  { xmin := minx, ymin := miny, xmax := maxx, ymax := maxy }

/-- The field `top_left` recorded per published matrix in `wmts_matrices`
(lines 1717-1721): the matrix's own origin when present, else the
preset-level origin, else 0. -/
def recorded_top_left (m : TileMatrix) (preset_origin_x preset_origin_y : Option Rat) :
    Rat × Rat :=
  (m.origin_x.getD (preset_origin_x.getD 0),
   m.origin_y.getD (preset_origin_y.getD 0))

/-- Does an extent intersect the region covered by a preset matrix grid?
The grid covers `[origin_x, origin_x + w·tile_w_mu] ×
[origin_y - h·tile_h_mu, origin_y]` (origin is the top-left corner). -/
def intersects_grid (e : Extent) (m : TileMatrix) : Bool :=
  let res := m.resolution.getD 0
  let tile_w_mu := (m.tile_width.getD 256) * res
  let tile_h_mu := (m.tile_height.getD 256) * res
  let ox := m.origin_x.getD 0
  let oy := m.origin_y.getD 0
  let w := max 1 (m.matrix_width.getD 1)
  let h := max 1 (m.matrix_height.getD 1)
  decide (e.xmin < ox + w * tile_w_mu ∧ ox < e.xmax ∧
    e.ymin < oy ∧ oy - h * tile_h_mu < e.ymax)

/-- The tile coordinates enumerated from a span (the nested loops at
lines 1644-1648): all `(col, row)` pairs of the inclusive ranges. -/
def span_tiles (s : Span) : List (Int × Int) :=
  ((List.range (s.max_col - s.min_col + 1).toNat).map
      (fun i => s.min_col + (i : Int))).flatMap fun x =>
    ((List.range (s.max_row - s.min_row + 1).toNat).map
        (fun j => s.min_row + (j : Int))).map fun y => (x, y)

/-! ## XYZ scheme (lines 1449-1491) -/

/-- Constant `M = 20037508.342789244` (line 1451), exactly. -/
def Mweb : Rat := 20037508342789244 / 1000000000

/-- The extent clamp to `[-M, M]` on each axis followed by the fatal
collapse check (lines 1452-1458): `none` models the
`extent inválido tras recorte` fatal exit. -/
def xyz_clamped_extent (e : Extent) : Option Extent :=
  let cl : Rat → Rat := fun v => max (-Mweb) (min Mweb v)
  let ex_minx := cl e.xmin
  let ex_maxx := cl e.xmax
  let ex_miny := cl e.ymin
  let ex_maxy := cl e.ymax
  if ex_maxx ≤ ex_minx ∨ ex_maxy ≤ ex_miny then none
  else some { xmin := ex_minx, ymin := ex_miny, xmax := ex_maxx, ymax := ex_maxy }

/-- The tiles enumerated at one level in `xyz_mode == "world"`
(line 1489): the full `2^z × 2^z` grid, independent of the extent. -/
def xyz_world_level_tiles (z : Nat) : List (Nat × Nat × Nat) :=
  (List.range (2 ^ z)).flatMap fun x =>
    (List.range (2 ^ z)).map fun y => (z, x, y)

/-- World-mode enumeration over the zoom range (lines 1482-1489). -/
def xyz_world_tiles (zoom_min zoom_max : Nat) : List (Nat × Nat × Nat) :=
  ((List.range (zoom_max + 1 - zoom_min)).map (· + zoom_min)).flatMap
    xyz_world_level_tiles

/-- A world-mode xyz run: the fatal clamp check runs first
(lines 1452-1458); only when it passes are tiles enumerated.  `none`
models the fatal exit before any tile work. -/
def xyz_run_world (e : Extent) (zoom_min zoom_max : Nat) :
    Option (List (Nat × Nat × Nat)) :=
  match xyz_clamped_extent e with
  | none => none
  | some _ => some (xyz_world_tiles zoom_min zoom_max)

/-! ## Tile persistence: `_atomic_save_image` (lines 550-685)

The filesystem is a map from paths to byte sizes of complete files.  The
embedding covers the deterministic behavior of the OS calls; the
`except` fallbacks that only fire when an OS call itself raises are not
reachable in this model.  The temporary name (line 570) carries the pid
and a millisecond timestamp, and the quarantine name (line 599)
likewise, so both are distinct from the destination; theorems take that
distinctness as hypotheses. -/

/-- A filesystem: byte size of the complete file at each path. -/
def FS := String → Option Nat

/-- Write/overwrite a path. -/
def fsSet (fs : FS) (p : String) (v : Option Nat) : FS :=
  fun q => if q = p then v else fs q

/-- Operation `os.replace(src, dst)`: dst takes src's content, src disappears. -/
def fsMove (fs : FS) (src dst : String) : FS :=
  fsSet (fsSet fs dst (fs src)) src none

/-- Function `_atomic_save_image` (lines 550-685).  `img` is `none` for a `None`
QImage (line 552), otherwise the byte size its PNG encoding will occupy
on disk.  `ddir` is the tile directory, `base` the destination file
name; the destination path is `ddir ++ "/" ++ base` (line 556 computes
`ddir` from it), the temp path `ddir ++ "/" ++ tmpName` (lines 568-571)
and the quarantine path `ddir ++ "/_bad_tiles/" ++ badName`
(lines 596-600).  Returns the success flag and the new filesystem. -/
def atomic_save_image (fs : FS) (img : Option Nat)
    (ddir base tmpName badName : String) (min_bytes : Nat) : Bool × FS :=
  match img with
  | none => (false, fs)
  | some imgSize =>
    let dest_path := ddir ++ "/" ++ base
    let tmp_path := ddir ++ "/" ++ tmpName
    let bad_path := ddir ++ "/_bad_tiles/" ++ badName
    let fs1 := fsSet fs tmp_path (some imgSize)
    if 0 < min_bytes ∧ imgSize < min_bytes then
      (false, fsMove fs1 tmp_path bad_path)
    else
      (true, fsMove fs1 tmp_path dest_path)

/-! ## Cancellation observation between render and save
(xyz: lines 1530-1536; wmts: lines 1678-1681) -/

/-- What a scheme branch does right after a render attempt finishes. -/
inductive PostRenderAction where
  | exitNoSave
  | save
deriving DecidableEq

/-- The xyz branch (lines 1530-1536): when the cancellation flag is set
after `job.renderedImage()` and before the save, the process exits
(`sys.exit(1)`) without saving the completed render. -/
def xyz_post_render (term : Bool) : PostRenderAction :=
  if term then PostRenderAction.exitNoSave else PostRenderAction.save

/-- The wmts branch (lines 1678-1681): the completed render is saved
unconditionally; there is no cancellation check between render and
save. -/
def wmts_post_render (_term : Bool) : PostRenderAction :=
  PostRenderAction.save

/-! ## Per-tile retry loop (xyz: lines 1513-1552; wmts: lines 1663-1693) -/

/-- The observable outcome of one render+save attempt: the render times
out (line 1523), the attempt body raises (line 1543/1684), the save
returns false (line 1540-1542/1681-1683), or the tile is saved. -/
inductive AttemptOutcome where
  | timeout
  | renderError
  | saveFailed
  | saved
deriving DecidableEq

/-- The retry loop
`while attempts <= max(0, tile_retries) and not success and not terminate`
(line 1517/1667/1834).  `term i` is the cancellation flag as observed at
the head of iteration `i`; `oracle i` the outcome of attempt `i`;
`budget` the remaining loop-condition allowance; `attempts` the counter
so far.  Returns the final `(attempts, success)`. -/
def tile_attempts (term : Nat → Bool) (oracle : Nat → AttemptOutcome) :
    Nat → Nat → Nat × Bool
  | 0, attempts => (attempts, false)
  | budget + 1, attempts =>
    if term attempts then (attempts, false)
    else
      match oracle attempts with
      | AttemptOutcome.saved => (attempts + 1, true)
      | _ => tile_attempts term oracle budget (attempts + 1)

/-- One tile's processing: the loop runs while
`attempts <= max(0, tile_retries)`, i.e. at most
`max(0, tile_retries) + 1` iterations starting from `attempts = 0`. -/
def process_tile (term : Nat → Bool) (oracle : Nat → AttemptOutcome)
    (tile_retries : Int) : Nat × Bool :=
  tile_attempts term oracle ((max 0 tile_retries).toNat + 1) 0

/-- The per-tile accounting of a run (lines 1545-1552/1686-1693): a
successful tile increments `total_generated`, an exhausted one emits a
warning record and increments `error_count`, and the loop then moves to
the next tile.  Returns
`(total_generated, error_count, warning_count)`. -/
def run_tiles (tile_retries : Int) :
    List ((Nat → Bool) × (Nat → AttemptOutcome)) → Nat × Nat × Nat
  | [] => (0, 0, 0)
  | t :: rest =>
    let r := process_tile t.1 t.2 tile_retries
    let acc := run_tiles tile_retries rest
    if r.2 then (acc.1 + 1, acc.2.1, acc.2.2)
    else (acc.1, acc.2.1 + 1, acc.2.2 + 1)

/-! ## Concrete inputs used by counterexamples and witnesses -/

/-- A 4×4, 256px, resolution-1 preset matrix with top-left origin
(0, 0): its grid covers `[0, 1024] × [-1024, 0]`. -/
def cexMatrix : TileMatrix :=
  { resolution := some 1, tile_width := some 256, tile_height := some 256
    origin_x := some 0, origin_y := some 0
    matrix_width := some 4, matrix_height := some 4 }

/-- An extent strictly left of `cexMatrix`'s grid (x in
`[-1000, -500]`): it does not intersect the grid. -/
def cexExtent : Extent := { xmin := -1000, ymin := -100, xmax := -500, ymax := -50 }

/-- A valid extent (positive width/height) lying entirely outside the
Web-Mercator square, so the xyz clamp collapses it. -/
def cexFarExtent : Extent :=
  { xmin := 30000000, ymin := 0, xmax := 40000000, ymax := 100 }

/-! # Theorems -/

/-- C9: when the caller leaves both `zoom_min` and `zoom_max` at their
default value 0, the engine silently replaces the range with zoom 0
through 2 before enumeration; a run caching exactly and only zoom
level 0 therefore cannot be requested, while any other explicit
combination is used unchanged. -/
theorem c9_default_zoom_expansion :
    effective_zoom 0 0 = (0, 2) ∧
    (∀ a b : Int, ¬(a = 0 ∧ b = 0) → effective_zoom a b = (a, b)) ∧
    (∀ a b : Int, effective_zoom a b ≠ (0, 0)) := by
  refine ⟨rfl, ?_, ?_⟩
  · intro a b h
    simp [effective_zoom, h]
  · intro a b
    by_cases h : a = 0 ∧ b = 0
    · simp [effective_zoom, h]
    · simp only [effective_zoom, if_neg h, ne_eq, Prod.mk.injEq]
      exact fun hc => h hc

theorem c9_default_zoom_expansion_witness :
    effective_zoom 1 0 = (1, 0) ∧ effective_zoom 0 0 ≠ (0, 0) :=
  ⟨c9_default_zoom_expansion.2.1 1 0 (by simp),
   c9_default_zoom_expansion.2.2 0 0⟩

/-- C6: for every run reaching the end of tile processing, the status is
`"aborted"` exactly when the cancellation flag was observed (taking
precedence), otherwise `"error"` exactly when the expected total is
positive, zero tiles were generated and at least one failure was
counted, otherwise `"completed"`; and the exit code is nonzero exactly
in the `"error"` case. -/
theorem c6_final_status_exit_code :
    ∀ (term : Bool) (expected total_generated error_count : Nat),
      (final_status term expected total_generated error_count = "aborted" ↔
        term = true) ∧
      (final_status term expected total_generated error_count = "error" ↔
        (term = false ∧ 0 < expected ∧ total_generated = 0 ∧ 0 < error_count)) ∧
      (final_status term expected total_generated error_count = "completed" ↔
        (term = false ∧
          ¬(0 < expected ∧ total_generated = 0 ∧ 0 < error_count))) ∧
      (exit_code term expected total_generated error_count ≠ 0 ↔
        final_status term expected total_generated error_count = "error") := by
  intro term e g r
  cases term <;> by_cases h : 0 < e ∧ g = 0 ∧ 0 < r <;>
    simp [final_status, exit_code, h]

/-- C10: when a target layer's provider is remote (`xyz`, `wms`, `wmts`
or `tile`) and remote caching is permitted via `allow_remote`, the
effective render timeout is forced up to 60000 ms whenever the
configured value is unset (0) or below 60000, silently overriding the
caller's smaller value; a value of at least 60000 is kept unchanged, as
is any value when no target layer is remote. -/
theorem c10_remote_timeout_floor :
    (∀ (ps : List String) (t : Int), (∃ p ∈ ps, p ∈ remote_providers) →
      (t = 0 ∨ t < 60000) → provider_guard ps true t = some 60000) ∧
    (∀ (ps : List String) (t : Int), ¬(t = 0 ∨ t < 60000) →
      provider_guard ps true t = some t) ∧
    (∀ (ps : List String) (t : Int), (∀ p ∈ ps, p ∉ remote_providers) →
      provider_guard ps true t = some t) := by
  have keep : ∀ (ps : List String) (t : Int), ¬(t = 0 ∨ t < 60000) →
      provider_guard ps true t = some t := by
    intro ps
    induction ps with
    | nil => intro t _; rfl
    | cons p rest ih =>
      intro t ht
      by_cases hp : p ∈ remote_providers
      · simp [provider_guard, hp, ht, ih t ht]
      · simp [provider_guard, hp, ih t ht]
  refine ⟨?_, keep, ?_⟩
  · intro ps
    induction ps with
    | nil =>
      intro t hex
      exact absurd hex (by simp)
    | cons p rest ih =>
      intro t hex ht
      by_cases hp : p ∈ remote_providers
      · have : provider_guard (p :: rest) true t =
            provider_guard rest true 60000 := by
          simp [provider_guard, hp, ht]
        rw [this]
        exact keep rest 60000 (by omega)
      · have hex' : ∃ q ∈ rest, q ∈ remote_providers := by
          rcases hex with ⟨q, hq, hqr⟩
          rcases List.mem_cons.mp hq with h | h
          · exact absurd (h ▸ hqr) hp
          · exact ⟨q, h, hqr⟩
        simp [provider_guard, hp, ih t hex' ht]
  · intro ps
    induction ps with
    | nil => intro t _; rfl
    | cons p rest ih =>
      intro t hall
      have hp : p ∉ remote_providers := hall p (List.mem_cons_self p rest)
      simp [provider_guard, hp,
        ih t (fun q hq => hall q (List.mem_cons_of_mem p hq))]

theorem c10_remote_timeout_floor_witness :
    provider_guard ["wms"] true 30000 = some 60000 ∧
    provider_guard ["wms"] true 120000 = some 120000 :=
  ⟨c10_remote_timeout_floor.1 ["wms"] 30000
      ⟨"wms", by simp, by simp [remote_providers]⟩ (by omega),
   c10_remote_timeout_floor.2.1 ["wms"] 120000 (by omega)⟩

/-- Function `_merge_range` on four present values is the four-way min and max. -/
theorem merge_range_all_some (x y z w : Int) :
    merge_range (some x) (some y) (some z) (some w) =
      (some (min (min (min x y) z) w), some (max (max (max x y) z) w)) := rfl

/-- C1: merging an existing catalog entry (same `(name, kind)` key) with
a new run only widens coverage: the resulting published and cached zoom
ranges are the min of the previous and new minima and the max of the
previous and new maxima, so a narrower later run never shrinks the
recorded ranges; in particular `[0,3]` merged with `[2,5]` is `[0,5]`. -/
theorem c1_catalog_merge_widens :
    ∀ (a b ca cb : Int) (lz lZ : Option Int) (pubMin pubMax zmin zmax : Int),
      0 ≤ a → a ≤ b → 0 ≤ ca → ca ≤ cb → pubMin ≤ pubMax → zmin ≤ zmax →
      (mergeCatalogEntry ⟨some a, some b, lz, lZ, some ca, some cb⟩
          pubMin pubMax zmin zmax).published_zoom_min = min a pubMin ∧
      (mergeCatalogEntry ⟨some a, some b, lz, lZ, some ca, some cb⟩
          pubMin pubMax zmin zmax).published_zoom_max = max b pubMax ∧
      (mergeCatalogEntry ⟨some a, some b, lz, lZ, some ca, some cb⟩
          pubMin pubMax zmin zmax).zoom_min = min a pubMin ∧
      (mergeCatalogEntry ⟨some a, some b, lz, lZ, some ca, some cb⟩
          pubMin pubMax zmin zmax).zoom_max = max b pubMax ∧
      (mergeCatalogEntry ⟨some a, some b, lz, lZ, some ca, some cb⟩
          pubMin pubMax zmin zmax).cached_zoom_min = min ca zmin ∧
      (mergeCatalogEntry ⟨some a, some b, lz, lZ, some ca, some cb⟩
          pubMin pubMax zmin zmax).cached_zoom_max = max cb zmax ∧
      min a pubMin ≤ a ∧ b ≤ max b pubMax ∧
      min ca zmin ≤ ca ∧ cb ≤ max cb zmax := by
  intro a b ca cb lz lZ pubMin pubMax zmin zmax ha hab hca hcab hpub hz
  have hb : (0 : Int) ≤ b := le_trans ha hab
  have hcb : (0 : Int) ≤ cb := le_trans hca hcab
  simp only [mergeCatalogEntry, safe_int, merge_range_all_some,
    reduceCtorEq, and_self, if_false, and_false, false_and]
  refine ⟨by omega, by omega, by omega, by omega, by omega, by omega,
    by omega, by omega, by omega, by omega⟩

theorem c1_catalog_merge_widens_witness :
    (mergeCatalogEntry ⟨some 0, some 3, none, none, some 0, some 3⟩
        2 5 2 5).published_zoom_min = 0 ∧
    (mergeCatalogEntry ⟨some 0, some 3, none, none, some 0, some 3⟩
        2 5 2 5).published_zoom_max = 5 ∧
    (mergeCatalogEntry ⟨some 0, some 3, none, none, some 0, some 3⟩
        2 5 2 5).cached_zoom_min = 0 ∧
    (mergeCatalogEntry ⟨some 0, some 3, none, none, some 0, some 3⟩
        2 5 2 5).cached_zoom_max = 5 := by
  have h := c1_catalog_merge_widens 0 3 0 3 none none 2 5 2 5
    (by omega) (by omega) (by omega) (by omega) (by omega) (by omega)
  refine ⟨?_, ?_, ?_, ?_⟩
  · rw [h.1]; rfl
  · rw [h.2.1]; rfl
  · rw [h.2.2.2.2.1]; rfl
  · rw [h.2.2.2.2.2.1]; rfl

/-- The attempt counter never exceeds the loop budget. -/
theorem tile_attempts_le (term : Nat → Bool) (oracle : Nat → AttemptOutcome) :
    ∀ (b a : Nat), (tile_attempts term oracle b a).1 ≤ a + b := by
  intro b
  induction b with
  | zero => intro a; simp [tile_attempts]
  | succ n ih =>
    intro a
    rw [tile_attempts]
    by_cases ht : term a
    · simp [ht]
    · simp only [ht, if_false, Bool.false_eq_true]
      cases h : oracle a with
      | saved => simp
      | timeout => exact le_trans (ih (a + 1)) (by omega)
      | renderError => exact le_trans (ih (a + 1)) (by omega)
      | saveFailed => exact le_trans (ih (a + 1)) (by omega)

/-- C5: per-tile retry policy and partial-failure tolerance.  At most
`max(0, tile_retries) + 1` attempts are made per tile; a set
cancellation flag at the loop head stops without a (further) attempt; a
timeout, a raised render error or a failed/undersized save each consume
exactly one attempt and the loop retries; over a run, every enumerated
tile is still processed after one fails, a success increments the
generated count, an exhausted tile increments the error count and the
warning count, and generated + failed = number of tiles. -/
theorem c5_retry_policy :
    ∀ (term : Nat → Bool) (oracle : Nat → AttemptOutcome) (tile_retries : Int)
      (tiles : List ((Nat → Bool) × (Nat → AttemptOutcome))),
      (process_tile term oracle tile_retries).1 ≤ (max 0 tile_retries).toNat + 1 ∧
      (term 0 = true → process_tile term oracle tile_retries = (0, false)) ∧
      (∀ b a, term a = false → oracle a ≠ AttemptOutcome.saved →
        tile_attempts term oracle (b + 1) a = tile_attempts term oracle b (a + 1)) ∧
      ((run_tiles tile_retries tiles).1 + (run_tiles tile_retries tiles).2.1 =
          tiles.length ∧
        (run_tiles tile_retries tiles).2.2 = (run_tiles tile_retries tiles).2.1) ∧
      (∀ t rest, run_tiles tile_retries (t :: rest) =
        (if (process_tile t.1 t.2 tile_retries).2 then
          ((run_tiles tile_retries rest).1 + 1,
           (run_tiles tile_retries rest).2.1,
           (run_tiles tile_retries rest).2.2)
        else
          ((run_tiles tile_retries rest).1,
           (run_tiles tile_retries rest).2.1 + 1,
           (run_tiles tile_retries rest).2.2 + 1))) := by
  intro term oracle tile_retries tiles
  refine ⟨?_, ?_, ?_, ?_, ?_⟩
  · have := tile_attempts_le term oracle ((max 0 tile_retries).toNat + 1) 0
    simpa [process_tile] using this
  · intro h
    rw [process_tile, tile_attempts, h]
    simp
  · intro b a ht ho
    rw [tile_attempts, ht]
    simp only [Bool.false_eq_true, if_false]
  · induction tiles with
    | nil => simp [run_tiles]
    | cons t rest ih =>
      obtain ⟨ih1, ih2⟩ := ih
      by_cases hs : (process_tile t.1 t.2 tile_retries).2
      · simp only [run_tiles, hs, if_true, List.length_cons]
        exact ⟨by omega, ih2⟩
      · simp only [run_tiles, hs, Bool.false_eq_true, if_false, List.length_cons]
        exact ⟨by omega, by omega⟩
  · intro t rest
    by_cases hs : (process_tile t.1 t.2 tile_retries).2 <;> simp [run_tiles, hs]

theorem c5_retry_policy_witness :
    (process_tile (fun _ => false) (fun _ => AttemptOutcome.timeout) 1).1 ≤ 2 ∧
    process_tile (fun _ => true) (fun _ => AttemptOutcome.timeout) 1 = (0, false) ∧
    tile_attempts (fun _ => false) (fun _ => AttemptOutcome.saveFailed) 2 0 =
      tile_attempts (fun _ => false) (fun _ => AttemptOutcome.saveFailed) 1 1 := by
  have h1 := (c5_retry_policy (fun _ => false) (fun _ => AttemptOutcome.timeout) 1 []).1
  have h2 := (c5_retry_policy (fun _ => true) (fun _ => AttemptOutcome.timeout) 1 []).2.1
  have h3 := (c5_retry_policy (fun _ => false)
    (fun _ => AttemptOutcome.saveFailed) 1 []).2.2.1 1 0 rfl (by simp)
  exact ⟨by simpa using h1, h2 rfl, h3⟩

/-- A span computed by `_compute_tile_span` always carries the matrix's
declared origin, never one derived from the extent. -/
theorem compute_tile_span_origin (e : Extent) (m : TileMatrix) (s : Span)
    (h : compute_tile_span (some e) (some m) = some s) :
    s.origin_x = m.origin_x.getD 0 ∧ s.origin_y = m.origin_y.getD 0 := by
  simp only [compute_tile_span] at h
  repeat' split at h
  all_goals
    first
      | exact Option.noConfusion h
      | (injection h with h'
         subst h'
         exact ⟨rfl, rfl⟩)

/-- The span used by the wmts preset loop (computed or fallback) always
carries the matrix's declared origin. -/
theorem preset_span_origin (e : Option Extent) (m : TileMatrix) (TS : Rat)
    (s : Span) (h : preset_span e m TS = some s) :
    s.origin_x = m.origin_x.getD 0 ∧ s.origin_y = m.origin_y.getD 0 := by
  simp only [preset_span] at h
  split at h
  · exact Option.noConfusion h
  · injection h with h'
    subst h'
    cases hc : compute_tile_span e (some m) with
    | none => simp [hc, fallback_span]
    | some s0 =>
      cases e with
      | none =>
        simp only [compute_tile_span] at hc
        exact Option.noConfusion hc
      | some e0 =>
        have ho := compute_tile_span_origin e0 m s0 hc
        simp [hc, ho.1, ho.2]

/-- C2: WMTS preset origin stability.  Every span the preset loop
produces carries the preset matrix's declared origin `(origin_x,
origin_y)` — never an origin recomputed from the run's extent — so two
runs over the same preset matrix yield the same span origin whatever
extent each supplies; the rendered tile bbox is anchored at that origin
(tile (0,0)'s top-left corner is exactly the declared origin), and the
recorded `top_left` of the matrix equals the declared origin as well. -/
theorem c2_preset_origin_stability :
    ∀ (e1 e2 : Option Extent) (m : TileMatrix) (TS : Rat) (s1 s2 : Span)
      (ox oy : Rat) (pox poy : Option Rat),
      preset_span e1 m TS = some s1 → preset_span e2 m TS = some s2 →
      m.origin_x = some ox → m.origin_y = some oy →
      (s1.origin_x = ox ∧ s1.origin_y = oy) ∧
      (s2.origin_x = s1.origin_x ∧ s2.origin_y = s1.origin_y) ∧
      ((tile_bbox s1 0 0).xmax = ox + s1.tile_width_mu ∧
        (tile_bbox s1 0 0).xmin = ox ∧ (tile_bbox s1 0 0).ymax = oy) ∧
      recorded_top_left m pox poy = (ox, oy) := by
  intro e1 e2 m TS s1 s2 ox oy pox poy h1 h2 hox hoy
  have o1 := preset_span_origin e1 m TS s1 h1
  have o2 := preset_span_origin e2 m TS s2 h2
  have g1x : s1.origin_x = ox := by rw [o1.1, hox]; rfl
  have g1y : s1.origin_y = oy := by rw [o1.2, hoy]; rfl
  refine ⟨⟨g1x, g1y⟩, ⟨by rw [o2.1, o1.1], by rw [o2.2, o1.2]⟩, ?_, ?_⟩
  · refine ⟨?_, ?_, ?_⟩ <;> simp [tile_bbox, g1x, g1y]
  · simp [recorded_top_left, hox, hoy]

/-- The wmts preset span at `cexExtent`/`cexMatrix`: although the extent
lies strictly left of the grid, the swap-then-clamp arithmetic of
`_compute_tile_span` yields the single-cell span `[0,0] × [0,0]`. -/
theorem preset_span_eval_left_of_grid :
    preset_span (some cexExtent) cexMatrix 256 =
      some { min_col := 0, max_col := 0, min_row := 0, max_row := 0
             tile_width_mu := 256, tile_height_mu := 256
             origin_x := 0, origin_y := 0 } := by
  simp [preset_span, compute_tile_span, cexExtent, cexMatrix]
  norm_num

/-- The wmts preset span with no extent (`None` falls through to the
fallback): the full declared matrix `[0,3] × [0,3]`. -/
theorem preset_span_eval_fallback :
    preset_span none cexMatrix 256 =
      some { min_col := 0, max_col := 3, min_row := 0, max_row := 3
             tile_width_mu := 256, tile_height_mu := 256
             origin_x := 0, origin_y := 0 } := by
  simp [preset_span, compute_tile_span, fallback_span, cexMatrix]

theorem c2_preset_origin_stability_witness :
    ((Span.origin_x { min_col := 0, max_col := 0, min_row := 0, max_row := 0
                      tile_width_mu := 256, tile_height_mu := 256
                      origin_x := 0, origin_y := 0 } = 0 ∧
      Span.origin_y { min_col := 0, max_col := 0, min_row := 0, max_row := 0
                      tile_width_mu := 256, tile_height_mu := 256
                      origin_x := 0, origin_y := 0 } = 0) ∧
     (Span.origin_x { min_col := 0, max_col := 3, min_row := 0, max_row := 3
                      tile_width_mu := 256, tile_height_mu := 256
                      origin_x := 0, origin_y := 0 } =
        Span.origin_x { min_col := 0, max_col := 0, min_row := 0, max_row := 0
                        tile_width_mu := 256, tile_height_mu := 256
                        origin_x := 0, origin_y := 0 } ∧
      Span.origin_y { min_col := 0, max_col := 3, min_row := 0, max_row := 3
                      tile_width_mu := 256, tile_height_mu := 256
                      origin_x := 0, origin_y := 0 } =
        Span.origin_y { min_col := 0, max_col := 0, min_row := 0, max_row := 0
                        tile_width_mu := 256, tile_height_mu := 256
                        origin_x := 0, origin_y := 0 }) ∧
     ((tile_bbox { min_col := 0, max_col := 0, min_row := 0, max_row := 0
                   tile_width_mu := 256, tile_height_mu := 256
                   origin_x := 0, origin_y := 0 } 0 0).xmax =
        0 + Span.tile_width_mu { min_col := 0, max_col := 0, min_row := 0
                                 max_row := 0, tile_width_mu := 256
                                 tile_height_mu := 256
                                 origin_x := 0, origin_y := 0 } ∧
      (tile_bbox { min_col := 0, max_col := 0, min_row := 0, max_row := 0
                   tile_width_mu := 256, tile_height_mu := 256
                   origin_x := 0, origin_y := 0 } 0 0).xmin = 0 ∧
      (tile_bbox { min_col := 0, max_col := 0, min_row := 0, max_row := 0
                   tile_width_mu := 256, tile_height_mu := 256
                   origin_x := 0, origin_y := 0 } 0 0).ymax = 0) ∧
     recorded_top_left cexMatrix none none = (0, 0)) :=
  c2_preset_origin_stability (some cexExtent) none cexMatrix 256 _ _ 0 0
    none none preset_span_eval_left_of_grid preset_span_eval_fallback rfl rfl

/-- C3 (code bug): empty tile spans are not detected.  `cexExtent` lies
strictly left of `cexMatrix`'s grid (they do not intersect), so per the
spec the span should be empty (inverted by the clamp) and the level
skipped.  Instead `_compute_tile_span` swaps the raw (negative) column
range before clamping, the clamp collapses it onto column 0, the skip
check `max < min` cannot fire, and the edge tile (0, 0) is enumerated
for rendering. -/
theorem c3_empty_span_not_detected :
    intersects_grid cexExtent cexMatrix = false ∧
    preset_span (some cexExtent) cexMatrix 256 =
      some { min_col := 0, max_col := 0, min_row := 0, max_row := 0
             tile_width_mu := 256, tile_height_mu := 256
             origin_x := 0, origin_y := 0 } ∧
    span_tiles { min_col := 0, max_col := 0, min_row := 0, max_row := 0
                 tile_width_mu := 256, tile_height_mu := 256
                 origin_x := 0, origin_y := 0 } = [(0, 0)] := by
  refine ⟨?_, preset_span_eval_left_of_grid, ?_⟩
  · simp [intersects_grid, cexExtent, cexMatrix]
  · decide

/-- Constant `Mweb` is positive and larger than 100. -/
theorem hundred_lt_Mweb : (100 : Rat) < Mweb := by
  rw [Mweb]; norm_num

/-- C8 counterexample: `cexFarExtent` is a valid extent (positive width
and height), yet a world-mode xyz run over it is a fatal input error —
the clamp to the Web-Mercator square collapses it (lines 1452-1458) and
no tile at all is enumerated, contradicting "exactly one tile (0,0,0)
regardless of the extent". -/
theorem xyz_run_world_none (e : Extent) (zmin zmax : Nat)
    (h : xyz_clamped_extent e = none) : xyz_run_world e zmin zmax = none := by
  unfold xyz_run_world
  rw [h]

/-- A passing clamp check always leads to the world enumeration. -/
theorem xyz_run_world_some (e ex : Extent) (zmin zmax : Nat)
    (h : xyz_clamped_extent e = some ex) :
    xyz_run_world e zmin zmax = some (xyz_world_tiles zmin zmax) := by
  unfold xyz_run_world
  rw [h]

theorem c8_world_zoom0_cex :
    (cexFarExtent.xmin < cexFarExtent.xmax ∧
      cexFarExtent.ymin < cexFarExtent.ymax) ∧
    xyz_run_world cexFarExtent 0 0 = none ∧
    xyz_run_world cexFarExtent 0 0 ≠ some [(0, 0, 0)] := by
  have h1 : min Mweb 30000000 = Mweb := by
    rw [min_eq_left]; rw [Mweb]; norm_num
  have h2 : min Mweb 40000000 = Mweb := by
    rw [min_eq_left]; rw [Mweb]; norm_num
  have h3 : max (-Mweb) Mweb = Mweb := by
    rw [max_eq_right]; rw [Mweb]; norm_num
  have hc : xyz_clamped_extent cexFarExtent = none := by
    rw [xyz_clamped_extent]
    simp only [cexFarExtent, h1, h2, h3]
    rw [if_pos]
    left; exact le_refl _
  refine ⟨⟨?_, ?_⟩, ?_, ?_⟩
  · simp only [cexFarExtent]; norm_num
  · simp only [cexFarExtent]; norm_num
  · exact xyz_run_world_none _ _ _ hc
  · rw [xyz_run_world_none _ _ _ hc]; simp

/-- C8 (amended): for every extent whose clamp to the Web-Mercator
square does not collapse (the fatal check passes), a world-mode xyz run
over the effective zoom range [0, 0] enumerates exactly the single tile
(0, 0, 0), independent of the extent. -/
theorem c8_world_zoom0_single_tile :
    ∀ (e ex : Extent), xyz_clamped_extent e = some ex →
      xyz_run_world e 0 0 = some [(0, 0, 0)] := by
  intro e ex h
  rw [xyz_run_world_some e ex 0 0 h]
  exact congrArg some (by decide)

theorem c8_world_zoom0_single_tile_witness :
    xyz_run_world { xmin := 0, ymin := 0, xmax := 100, ymax := 100 } 0 0 =
      some [(0, 0, 0)] := by
  have h0 : min Mweb 0 = 0 := by
    rw [min_eq_right]; rw [Mweb]; norm_num
  have h0m : max (-Mweb) (0 : Rat) = 0 := by
    rw [max_eq_right]; rw [Mweb]; norm_num
  have h100 : min Mweb 100 = 100 := by
    rw [min_eq_right]
    exact le_of_lt hundred_lt_Mweb
  have h100m : max (-Mweb) (100 : Rat) = 100 := by
    rw [max_eq_right]; rw [Mweb]; norm_num
  have hc : xyz_clamped_extent { xmin := 0, ymin := 0, xmax := 100, ymax := 100 } =
      some { xmin := 0, ymin := 0, xmax := 100, ymax := 100 } := by
    rw [xyz_clamped_extent]
    simp only [h0, h0m, h100, h100m]
    rw [if_neg]
    norm_num
  exact c8_world_zoom0_single_tile _ _ hc

/-- C4: undersized-tile quarantine.  When a positive minimum byte size
is configured and the written temp file is smaller, the save reports
failure, the canonical destination path is left untouched (the old
content, or absence, persists), and the temp file is moved — not
deleted — into the `_bad_tiles` subdirectory of the tile directory. -/
theorem c4_undersized_quarantine :
    ∀ (fs : FS) (imgSize : Nat) (ddir base tmpName badName : String)
      (min_bytes : Nat),
      0 < min_bytes → imgSize < min_bytes →
      ddir ++ "/" ++ tmpName ≠ ddir ++ "/" ++ base →
      ddir ++ "/_bad_tiles/" ++ badName ≠ ddir ++ "/" ++ base →
      ddir ++ "/_bad_tiles/" ++ badName ≠ ddir ++ "/" ++ tmpName →
      (atomic_save_image fs (some imgSize) ddir base tmpName badName
          min_bytes).1 = false ∧
      (atomic_save_image fs (some imgSize) ddir base tmpName badName
          min_bytes).2 (ddir ++ "/" ++ base) = fs (ddir ++ "/" ++ base) ∧
      (atomic_save_image fs (some imgSize) ddir base tmpName badName
          min_bytes).2 (ddir ++ "/_bad_tiles/" ++ badName) = some imgSize ∧
      (atomic_save_image fs (some imgSize) ddir base tmpName badName
          min_bytes).2 (ddir ++ "/" ++ tmpName) = none := by
  intro fs imgSize ddir base tmpName badName min_bytes hmin hsize htb hbb hbt
  have hdt : ddir ++ "/" ++ base ≠ ddir ++ "/" ++ tmpName := Ne.symm htb
  have hdb : ddir ++ "/" ++ base ≠ ddir ++ "/_bad_tiles/" ++ badName :=
    Ne.symm hbb
  have htp : ddir ++ "/" ++ tmpName ≠ ddir ++ "/_bad_tiles/" ++ badName :=
    Ne.symm hbt
  simp only [atomic_save_image, if_pos (And.intro hmin hsize)]
  refine ⟨trivial, ?_, ?_, ?_⟩
  · simp [fsMove, fsSet, hdt, hdb]
  · simp [fsMove, fsSet, hbt]
  · simp [fsMove, fsSet]

theorem c4_undersized_quarantine_witness :
    (atomic_save_image (fun _ => none) (some 10) "tiles/3/2" "5.png"
        "5.png.tmp.42.1700" "5.png.bad.42.1700" 100).1 = false ∧
    (atomic_save_image (fun _ => none) (some 10) "tiles/3/2" "5.png"
        "5.png.tmp.42.1700" "5.png.bad.42.1700" 100).2
      ("tiles/3/2" ++ "/" ++ "5.png") = (fun _ => (none : Option Nat))
        ("tiles/3/2" ++ "/" ++ "5.png") ∧
    (atomic_save_image (fun _ => none) (some 10) "tiles/3/2" "5.png"
        "5.png.tmp.42.1700" "5.png.bad.42.1700" 100).2
      ("tiles/3/2" ++ "/_bad_tiles/" ++ "5.png.bad.42.1700") = some 10 ∧
    (atomic_save_image (fun _ => none) (some 10) "tiles/3/2" "5.png"
        "5.png.tmp.42.1700" "5.png.bad.42.1700" 100).2
      ("tiles/3/2" ++ "/" ++ "5.png.tmp.42.1700") = none :=
  c4_undersized_quarantine (fun _ => none) 10 "tiles/3/2" "5.png"
    "5.png.tmp.42.1700" "5.png.bad.42.1700" 100
    (by omega) (by omega) (by decide) (by decide) (by decide)

/-- C7 counterexample: in the xyz branch the cancellation flag observed
between render completion and save causes an immediate exit discarding
the completed render (lines 1530-1536) — the engine does not allow the
save of that tile to proceed, refuting the claim at the concrete input
`term = true`. -/
theorem c7_abort_discards_render_cex :
    xyz_post_render true = PostRenderAction.exitNoSave ∧
    ¬(∀ term : Bool, xyz_post_render term = PostRenderAction.save) := by
  constructor
  · rfl
  · intro hall
    have := hall true
    simp [xyz_post_render] at this

/-- C7 (amended): the wmts branch saves a completed render even when the
flag is already set (no check between render and save), and a save, once
started, can only leave the canonical path unchanged or holding the
complete image — never a half-written file — because the image is
written to a temp path and reaches the destination only via a rename. -/
theorem c7_save_runs_to_completion :
    (∀ term : Bool, wmts_post_render term = PostRenderAction.save) ∧
    (∀ (fs : FS) (img : Option Nat) (ddir base tmpName badName : String)
        (min_bytes : Nat),
      ddir ++ "/" ++ tmpName ≠ ddir ++ "/" ++ base →
      (atomic_save_image fs img ddir base tmpName badName min_bytes).2
          (ddir ++ "/" ++ base) = fs (ddir ++ "/" ++ base) ∨
      (∃ n, img = some n ∧
        (atomic_save_image fs img ddir base tmpName badName min_bytes).2
          (ddir ++ "/" ++ base) = some n)) := by
  constructor
  · intro term; rfl
  · intro fs img ddir base tmpName badName min_bytes htb
    have hdt : ddir ++ "/" ++ base ≠ ddir ++ "/" ++ tmpName := Ne.symm htb
    cases img with
    | none => left; rfl
    | some n =>
      by_cases hsmall : 0 < min_bytes ∧ n < min_bytes
      · by_cases hdb : ddir ++ "/" ++ base = ddir ++ "/_bad_tiles/" ++ badName
        · right
          refine ⟨n, rfl, ?_⟩
          have hbt : ddir ++ "/_bad_tiles/" ++ badName ≠
              ddir ++ "/" ++ tmpName := by
            rw [← hdb]; exact hdt
          simp [atomic_save_image, if_pos hsmall, fsMove, fsSet, hdb, hbt]
        · left
          simp [atomic_save_image, if_pos hsmall, fsMove, fsSet, hdb, hdt]
      · right
        refine ⟨n, rfl, ?_⟩
        simp [atomic_save_image, if_neg hsmall, fsMove, fsSet, hdt]

theorem c7_save_runs_to_completion_witness :
    wmts_post_render true = PostRenderAction.save ∧
    ((atomic_save_image (fun _ => none) (some 10) "d" "f.png" "t1" "b1" 0).2
        ("d" ++ "/" ++ "f.png") = (fun _ => (none : Option Nat))
          ("d" ++ "/" ++ "f.png") ∨
      (∃ n, (some 10 : Option Nat) = some n ∧
        (atomic_save_image (fun _ => none) (some 10) "d" "f.png" "t1" "b1"
            0).2 ("d" ++ "/" ++ "f.png") = some n)) :=
  ⟨c7_save_runs_to_completion.1 true,
   c7_save_runs_to_completion.2 (fun _ => none) (some 10) "d" "f.png" "t1"
     "b1" 0 (by decide)⟩
